import Mathlib

/-!
Verification of the wherehows compliance API client
(`src/wherehows-web/app/utils/api/datasets/compliance.ts`) and the
DataHub link-list React component
(`src/datahub-web-react/src/app/entity/shared/tabs/Documentation/components/LinkList.tsx`).

The TypeScript async functions are shallowly embedded as pure Lean
functions.  Each remote call (fetch / GraphQL mutation) is an external
effect whose outcome (resolve / reject) is passed in as an explicit
parameter; a function's behaviour is modelled as the list of effects it
issues together with its result (resolved value or propagated thrown
value).  JavaScript `undefined` on an object field is `Option.none`;
the JavaScript falsy-or `a || b` on strings is spelled out explicitly.
-/

namespace Compliance

/-- Modelled from the spec: the compliance policy record for a dataset.
The concrete field list of `IComplianceInfo` lives in
`wherehows-web/typings/api/datasets/compliance`, which is not part of
this repository fragment; the spec says a policy "contains
classification fields and embedded/derived retention fields", so the
model carries a urn, one classification field and two retention
fields. -/
structure IComplianceInfo where
  datasetUrn : String
  complianceEntities : List String
  retentionPurgeType : Option String
  retentionPurgeNote : Option String
  deriving Repr, DecidableEq

/-- Modelled from the spec: `initialComplianceObjectFactory` (imported
from `wherehows-web/constants`, not in this fragment) synthesizes "a
freshly constructed default policy for that urn": empty classification
and retention, keyed by the urn. -/
def initialComplianceObjectFactory (urn : String) : IComplianceInfo :=
  { datasetUrn := urn
    complianceEntities := []
    retentionPurgeType := none
    retentionPurgeNote := none }

/-- Modelled from the spec: an error thrown by the fetch layer.  The
spec's error taxonomy distinguishes "not-found" from "generic remote
failure"; an error carries an HTTP status and a message. -/
structure ApiError where
  status : Nat
  msg : String
  deriving Repr, DecidableEq

/-- Modelled from the spec: `isNotFoundApiError` (imported from
`wherehows-web/utils/api`, not in this fragment) recognises the
not-found condition of a thrown api error. -/
def isNotFoundApiError (e : ApiError) : Bool :=
  e.status == 404

/-- Modelled from the spec: `datasetUrlByUrn` (imported from
`wherehows-web/utils/api/datasets/shared`, not in this fragment) builds
the base resource url for a dataset; the spec only fixes the convention
`\x7bbase-resource-url\x7d/compliance`, so the base takes the api
prefix used for datasets by urn. -/
def datasetUrlByUrn (urn : String) : String :=
  "/api/v2/datasets/" ++ urn

/-- Source: `datasetComplianceUrlByUrn` in compliance.ts. -/
def datasetComplianceUrlByUrn (urn : String) : String :=
  datasetUrlByUrn urn ++ "/compliance"

/-- Source: `datasetComplianceSuggestionUrlByUrn` in compliance.ts. -/
def datasetComplianceSuggestionUrlByUrn (urn : String) : String :=
  datasetUrlByUrn urn ++ "/compliance/suggestion"

/-- The response body of the compliance GET,
`Pick<IComplianceGetResponse, 'complianceInfo'>`: the `complianceInfo`
field may be absent (`undefined`), hence `Option`. -/
structure IComplianceGetResponse where
  complianceInfo : Option IComplianceInfo
  deriving Repr, DecidableEq

/-- Outcome of the underlying `getJSON` call for the compliance GET:
it either resolves with a response body or rejects with a thrown
error. -/
inductive GetComplianceOutcome where
  | ok (resp : IComplianceGetResponse)
  | threw (e : ApiError)
  deriving Repr, DecidableEq

/-- Source: `IReadComplianceResult` in compliance.ts.  The TypeScript
interface declares `complianceInfo: IComplianceInfo`, but the value
returned through the non-null assertion `complianceInfo!` can still be
`undefined` at runtime, so the model keeps the honest `Option` type. -/
structure IReadComplianceResult where
  isNewComplianceInfo : Bool
  complianceInfo : Option IComplianceInfo
  deriving Repr, DecidableEq

/-- A promise settles by resolving with a result or rejecting with the
propagated thrown error. -/
inductive ReadComplianceResult where
  | resolved (r : IReadComplianceResult)
  | rejected (e : ApiError)
  deriving Repr, DecidableEq

/-- Source: `readDatasetComplianceByUrn` in compliance.ts.
`complianceInfo` is initialised from the factory, then the `try` block
destructures the GET response into it (overwriting it with the
response field, present or not); the `catch` block replaces it with a
fresh factory object and sets the flag only on a not-found error, and
rethrows any other error. -/
def readDatasetComplianceByUrn (urn : String)
    (getOutcome : GetComplianceOutcome) : ReadComplianceResult :=
  let complianceInfo : Option IComplianceInfo :=
    some (initialComplianceObjectFactory urn)
  let isNewComplianceInfo := false
  match getOutcome with
  | GetComplianceOutcome.ok resp =>
      ReadComplianceResult.resolved
        { isNewComplianceInfo := isNewComplianceInfo
          complianceInfo := resp.complianceInfo }
  | GetComplianceOutcome.threw e =>
      if isNotFoundApiError e then
        ReadComplianceResult.resolved
          { isNewComplianceInfo := true
            complianceInfo := some (initialComplianceObjectFactory urn) }
      else
        ReadComplianceResult.rejected e

/-- Modelled from the spec: the compliance suggestion record
(`IComplianceSuggestion`, typed outside this fragment): "optional
suggested classification", so the model carries optional suggested
fields; `<IComplianceSuggestion>\x7b\x7d` in the source is the empty
object, i.e. every field absent. -/
structure IComplianceSuggestion where
  lastModified : Option Nat
  suggestedFieldClassification : Option (List String)
  deriving Repr, DecidableEq

/-- The empty object `<IComplianceSuggestion>\x7b\x7d` cast in the
source: every field `undefined`. -/
def emptyComplianceSuggestion : IComplianceSuggestion :=
  { lastModified := none, suggestedFieldClassification := none }

/-- The response body of the suggestion GET,
`Pick<IComplianceSuggestionResponse, 'complianceSuggestion'>`: the
field may be absent. -/
structure IComplianceSuggestionResponse where
  complianceSuggestion : Option IComplianceSuggestion
  deriving Repr, DecidableEq

/-- Outcome of the underlying `getJSON` call for the suggestion GET. -/
inductive GetSuggestionOutcome where
  | ok (resp : IComplianceSuggestionResponse)
  | threw (e : ApiError)
  deriving Repr, DecidableEq

/-- Settlement of the suggestion read promise. -/
inductive SuggestionReadResult where
  | resolved (s : IComplianceSuggestion)
  | rejected (e : ApiError)
  deriving Repr, DecidableEq

/-- Source: `readDatasetComplianceSuggestionByUrn` in compliance.ts.
`complianceSuggestion` is initialised to the empty object; the `try`
block destructures the response into it with the empty object as the
destructuring default (applied when the field is absent); the bare
`catch` returns the still-empty local on any thrown error. -/
def readDatasetComplianceSuggestionByUrn (_urn : String)
    (getOutcome : GetSuggestionOutcome) : SuggestionReadResult :=
  let complianceSuggestion := emptyComplianceSuggestion
  match getOutcome with
  | GetSuggestionOutcome.ok resp =>
      SuggestionReadResult.resolved
        (resp.complianceSuggestion.getD emptyComplianceSuggestion)
  | GetSuggestionOutcome.threw _ =>
      SuggestionReadResult.resolved complianceSuggestion

/-- Modelled from the spec: the retention payload extracted from a
compliance policy and persisted separately against the same urn. -/
structure DatasetRetention where
  datasetUrn : String
  purgeType : Option String
  purgeNote : Option String
  deriving Repr, DecidableEq

/-- Modelled from the spec: `nullifyRetentionFieldsOnComplianceInfo`
(imported from `wherehows-web/utils/datasets/retention`, not in this
fragment) "strips retention fields out of the policy payload",
leaving everything else intact. -/
def nullifyRetentionFieldsOnComplianceInfo
    (c : IComplianceInfo) : IComplianceInfo :=
  { c with retentionPurgeType := none, retentionPurgeNote := none }

/-- Modelled from the spec: `extractRetentionFromComplianceInfo`
(imported from `wherehows-web/utils/datasets/retention`, not in this
fragment) extracts "exactly the retention fields" of the policy. -/
def extractRetentionFromComplianceInfo
    (c : IComplianceInfo) : DatasetRetention :=
  { datasetUrn := c.datasetUrn
    purgeType := c.retentionPurgeType
    purgeNote := c.retentionPurgeNote }

/-- A remote write issued by the save flow: the compliance post
(`postJSON` to the compliance url) or the retention post
(`saveDatasetRetentionByUrn`, modelled from the spec as the post of
the retention payload against the urn). -/
inductive SaveEffect where
  | postCompliance (url : String) (data : IComplianceInfo)
  | postRetention (urn : String) (data : DatasetRetention)
  deriving Repr, DecidableEq

/-- Outcome of one awaited remote write. -/
inductive PostOutcome where
  | ok
  | threw (e : ApiError)
  deriving Repr, DecidableEq

/-- Settlement of the save promise (`Promise<void>`). -/
inductive SaveResult where
  | resolved
  | rejected (e : ApiError)
  deriving Repr, DecidableEq

/-- Source: `saveDatasetComplianceByUrn` in compliance.ts.  It awaits
the compliance post with the retention-stripped policy, then awaits the
retention post with the extracted retention fields; a rejection of
either await propagates out of the async function, and a rejection of
the first prevents the second from being issued.  The returned list is
the sequence of writes issued, in order. -/
def saveDatasetComplianceByUrn (urn : String)
    (complianceInfo : IComplianceInfo)
    (postComplianceOutcome postRetentionOutcome : PostOutcome) :
    List SaveEffect × SaveResult :=
  let firstPost := SaveEffect.postCompliance (datasetComplianceUrlByUrn urn)
    (nullifyRetentionFieldsOnComplianceInfo complianceInfo)
  match postComplianceOutcome with
  | PostOutcome.threw e => ([firstPost], SaveResult.rejected e)
  | PostOutcome.ok =>
      let secondPost := SaveEffect.postRetention urn
        (extractRetentionFromComplianceInfo complianceInfo)
      match postRetentionOutcome with
      | PostOutcome.threw e =>
          ([firstPost, secondPost], SaveResult.rejected e)
      | PostOutcome.ok => ([firstPost, secondPost], SaveResult.resolved)

end Compliance

namespace Compliance

/-- C1: for every urn, when the compliance GET fails with a not-found
error, `readDatasetComplianceByUrn` resolves with
`complianceInfo = initialComplianceObjectFactory urn` and
`isNewComplianceInfo = true`. -/
theorem readByUrn_notFound_default (urn : String) (e : ApiError)
    (h : isNotFoundApiError e = true) :
    readDatasetComplianceByUrn urn (GetComplianceOutcome.threw e) =
      ReadComplianceResult.resolved
        { isNewComplianceInfo := true
          complianceInfo := some (initialComplianceObjectFactory urn) } := by
  simp [readDatasetComplianceByUrn, h]

/-- C1 witness: a 404 backend on `urn:li:dataset:1` yields the default
policy for that urn flagged as new. -/
theorem readByUrn_notFound_default_witness :
    isNotFoundApiError { status := 404, msg := "not found" } = true ∧
    readDatasetComplianceByUrn "urn:li:dataset:1"
        (GetComplianceOutcome.threw { status := 404, msg := "not found" }) =
      ReadComplianceResult.resolved
        { isNewComplianceInfo := true
          complianceInfo :=
            some (initialComplianceObjectFactory "urn:li:dataset:1") } :=
  ⟨by decide, readByUrn_notFound_default "urn:li:dataset:1"
      { status := 404, msg := "not found" } (by decide)⟩

/-- C5: for every urn, on a successful compliance GET
`readDatasetComplianceByUrn` resolves with the server's
`complianceInfo` payload unmodified and `isNewComplianceInfo = false`;
and on any thrown error that is not a not-found error it rejects with
that same error. -/
theorem readByUrn_success_and_propagate (urn : String)
    (resp : IComplianceGetResponse) (e : ApiError)
    (h : isNotFoundApiError e = false) :
    readDatasetComplianceByUrn urn (GetComplianceOutcome.ok resp) =
      ReadComplianceResult.resolved
        { isNewComplianceInfo := false
          complianceInfo := resp.complianceInfo } ∧
    readDatasetComplianceByUrn urn (GetComplianceOutcome.threw e) =
      ReadComplianceResult.rejected e := by
  constructor
  · simp [readDatasetComplianceByUrn]
  · simp [readDatasetComplianceByUrn, h]

/-- C5 witness: a successful GET carrying a concrete policy resolves
with exactly that policy and the flag false, and a 500 error is
propagated unchanged. -/
theorem readByUrn_success_and_propagate_witness :
    isNotFoundApiError { status := 500, msg := "boom" } = false ∧
    (readDatasetComplianceByUrn "urn:li:dataset:2"
        (GetComplianceOutcome.ok
          { complianceInfo := some
              { datasetUrn := "urn:li:dataset:2"
                complianceEntities := ["f1"]
                retentionPurgeType := some "AUTO_PURGE"
                retentionPurgeNote := none } }) =
      ReadComplianceResult.resolved
        { isNewComplianceInfo := false
          complianceInfo := some
            { datasetUrn := "urn:li:dataset:2"
              complianceEntities := ["f1"]
              retentionPurgeType := some "AUTO_PURGE"
              retentionPurgeNote := none } } ∧
    readDatasetComplianceByUrn "urn:li:dataset:2"
        (GetComplianceOutcome.threw { status := 500, msg := "boom" }) =
      ReadComplianceResult.rejected { status := 500, msg := "boom" }) :=
  ⟨by decide,
    readByUrn_success_and_propagate "urn:li:dataset:2"
      { complianceInfo := some
          { datasetUrn := "urn:li:dataset:2"
            complianceEntities := ["f1"]
            retentionPurgeType := some "AUTO_PURGE"
            retentionPurgeNote := none } }
      { status := 500, msg := "boom" } (by decide)⟩

/-- C9: when the compliance GET succeeds with a body whose
`complianceInfo` field is absent, `readDatasetComplianceByUrn` resolves
with `complianceInfo = none` (`undefined`, despite the non-null
assertion in the source) and `isNewComplianceInfo = false`: the
destructuring overwrites the factory value initialised before the
fetch. -/
theorem readByUrn_success_missing_field (urn : String) :
    readDatasetComplianceByUrn urn
        (GetComplianceOutcome.ok { complianceInfo := none }) =
      ReadComplianceResult.resolved
        { isNewComplianceInfo := false, complianceInfo := none } := by
  simp [readDatasetComplianceByUrn]

/-- C4: for every urn and every outcome of the underlying fetch,
`readDatasetComplianceSuggestionByUrn` resolves (never rejects), and on
any thrown error it resolves with the empty suggestion object. -/
theorem readSuggestionByUrn_never_rejects (urn : String)
    (o : GetSuggestionOutcome) (e : ApiError) :
    (∃ s, readDatasetComplianceSuggestionByUrn urn o =
        SuggestionReadResult.resolved s) ∧
    readDatasetComplianceSuggestionByUrn urn (GetSuggestionOutcome.threw e) =
      SuggestionReadResult.resolved emptyComplianceSuggestion := by
  refine ⟨?_, rfl⟩
  cases o with
  | ok resp => exact ⟨_, rfl⟩
  | threw e => exact ⟨_, rfl⟩

/-- C3: for every urn and policy, whenever the first post resolves,
`saveDatasetComplianceByUrn` issues exactly the retention-stripped
policy post to the compliance endpoint followed by the post of the
retention fields extracted from the original policy for the same urn
— in that order, whatever the second post's outcome, so a failing
second post leaves the completed first post in place with no rollback
(the promise then rejects); and when the first post rejects, the
retention post is never issued. -/
theorem saveByUrn_two_sequential_posts (urn : String)
    (complianceInfo : IComplianceInfo)
    (retOutcome : PostOutcome) (e : ApiError) :
    (saveDatasetComplianceByUrn urn complianceInfo
        PostOutcome.ok retOutcome).1 =
      [SaveEffect.postCompliance (datasetComplianceUrlByUrn urn)
          (nullifyRetentionFieldsOnComplianceInfo complianceInfo),
        SaveEffect.postRetention urn
          (extractRetentionFromComplianceInfo complianceInfo)] ∧
    (saveDatasetComplianceByUrn urn complianceInfo
        PostOutcome.ok (PostOutcome.threw e)).2 =
      SaveResult.rejected e ∧
    (saveDatasetComplianceByUrn urn complianceInfo
        (PostOutcome.threw e) retOutcome).1 =
      [SaveEffect.postCompliance (datasetComplianceUrlByUrn urn)
          (nullifyRetentionFieldsOnComplianceInfo complianceInfo)] := by
  refine ⟨?_, rfl, rfl⟩
  cases retOutcome <;> rfl

end Compliance

namespace LinkList

/-- JavaScript falsy-or `a || b` on a possibly absent string: the
fallback is taken when `a` is `undefined`/`null` (`none`) or the empty
string (the only falsy string). -/
def jsFalsyOr (a : Option String) (b : String) : String :=
  match a with
  | some s => if s.isEmpty then b else s
  | none => b

/-- JavaScript falsy-or on two strings, as in `e.message || ''`. -/
def jsFalsyOrStr (a b : String) : String :=
  if a.isEmpty then b else a

/-- Modelled from the spec: an institutional-memory link record
(`InstitutionalMemoryMetadata` from `types.generated`, not in this
fragment): "url (string), label/description (string), author …,
creation timestamp, optional association to a different resource urn
than the owning entity".  Author and timestamp are only rendered, so
the model keeps the fields the handlers read. -/
structure InstitutionalMemoryMetadata where
  url : String
  label : String
  description : String
  associatedUrn : Option String
  deriving Repr, DecidableEq

/-- Modelled from the spec: the signed-in user context returned by
`useUserContext` (not in this fragment); `user?.urn` may be absent at
either level, and an absent `user` makes the whole optional chain
`undefined`, so the model keeps the urn behind two `Option` layers. -/
structure UserContext where
  urn : Option String
  deriving Repr, DecidableEq

/-- The optional chain `user?.urn`. -/
def userUrnOf (user : Option UserContext) : Option String :=
  match user with
  | some u => u.urn
  | none => none

/-- JavaScript truthiness of a possibly absent string, as in
`if (user?.urn)`. -/
def jsTruthy (a : Option String) : Bool :=
  match a with
  | some s => !s.isEmpty
  | none => false

/-- A JavaScript thrown value: either an `Error` instance carrying a
message, or any other value (`e instanceof Error` is false). -/
inductive Thrown where
  | errorInstance (message : String)
  | nonError
  deriving Repr, DecidableEq

/-- Outcome of one awaited GraphQL mutation call. -/
inductive MutationOutcome where
  | ok
  | threw (v : Thrown)
  deriving Repr, DecidableEq

/-- The observable side effects the two handlers can issue, in
program order: the remove-link and add-link mutation requests (the
request is recorded when issued, whether or not it later rejects), the
antd `message` toasts and `message.destroy()`, the analytics event,
the optional `refetch` callback and closing the edit modal. -/
inductive Effect where
  | removeLink (linkUrl resourceUrn : String)
  | addLink (linkUrl label resourceUrn : String)
  | messageSuccess (content : String)
  | messageError (content : String)
  | messageDestroy
  | analyticsEvent (entityUrn : String)
  | refetchCall
  | closeEditModal
  deriving Repr, DecidableEq

/-- The `catch` blocks of both handlers show an error toast only when
the thrown value is an `Error` instance; the toast text appends
`e.message || ''` to the given text. -/
def errorNoticeEffects (text : String) (v : Thrown) : List Effect :=
  match v with
  | Thrown.errorInstance m =>
      [Effect.messageError (text ++ jsFalsyOrStr m "")]
  | Thrown.nonError => []

/-- Source: `handleDeleteLink` in LinkList.tsx.  It awaits the
remove-link mutation keyed by the link url and
`metadata.associatedUrn || entityUrn`; on success it shows the
"Link Removed" toast; on a thrown error it calls `message.destroy()`
and shows an error toast only for `Error` instances; finally
`refetch?.()` runs in every case when a callback was provided. -/
def handleDeleteLink (metadata : InstitutionalMemoryMetadata)
    (entityUrn : String) (refetchProvided : Bool)
    (removeOutcome : MutationOutcome) : List Effect :=
  let removeAttempt := Effect.removeLink metadata.url
    (jsFalsyOr metadata.associatedUrn entityUrn)
  let refetchEffects := if refetchProvided then [Effect.refetchCall] else []
  match removeOutcome with
  | MutationOutcome.ok =>
      removeAttempt :: Effect.messageSuccess "Link Removed" :: refetchEffects
  | MutationOutcome.threw v =>
      removeAttempt :: Effect.messageDestroy ::
        (errorNoticeEffects "Error removing link: \n " v ++ refetchEffects)

/-- The fields of the edit form submitted to `handleEdit`. -/
structure EditFormData where
  url : String
  label : String
  deriving Repr, DecidableEq

/-- Source: `handleEdit` in LinkList.tsx.  With no `linkDetails` it
returns immediately.  Otherwise it awaits the remove-link mutation for
the old link (keyed by `linkDetails.associatedUrn || entityUrn`);
only then, if `user?.urn` is truthy, it awaits the add-link mutation
for the form fields against `mutationUrn`, and on success shows the
"Link Updated" toast, emits the analytics event, runs `refetch?.()`
and closes the modal; with no truthy `user?.urn` it shows the
"no user" error toast instead; any thrown error from either mutation
lands in the `catch` block (`message.destroy()` plus an error toast
for `Error` instances). -/
def handleEdit (linkDetails : Option InstitutionalMemoryMetadata)
    (user : Option UserContext) (formData : EditFormData)
    (entityUrn mutationUrn : String) (refetchProvided : Bool)
    (removeOutcome addOutcome : MutationOutcome) : List Effect :=
  match linkDetails with
  | none => []
  | some ld =>
    let removeAttempt := Effect.removeLink ld.url
      (jsFalsyOr ld.associatedUrn entityUrn)
    match removeOutcome with
    | MutationOutcome.threw v =>
        removeAttempt :: Effect.messageDestroy ::
          errorNoticeEffects "Error updating link: \n " v
    | MutationOutcome.ok =>
        if jsTruthy (userUrnOf user) then
          let addAttempt :=
            Effect.addLink formData.url formData.label mutationUrn
          match addOutcome with
          | MutationOutcome.threw v =>
              removeAttempt :: addAttempt :: Effect.messageDestroy ::
                errorNoticeEffects "Error updating link: \n " v
          | MutationOutcome.ok =>
              removeAttempt :: addAttempt ::
                Effect.messageSuccess "Link Updated" ::
                Effect.analyticsEvent mutationUrn ::
                ((if refetchProvided then [Effect.refetchCall] else []) ++
                  [Effect.closeEditModal])
        else
          [removeAttempt, Effect.messageError "Error updating link: no user"]

end LinkList

namespace LinkList

/-- C7: for every link and every outcome, the first effect of
`handleDeleteLink` is the remove request keyed by the link's url and
the link's `associatedUrn`; when the link has no `associatedUrn`
(absent, or the empty string — the falsy fallback of the source's
`||`) the owning entity's own urn is the target resource urn. -/
theorem handleDeleteLink_request_keys
    (metadata : InstitutionalMemoryMetadata) (entityUrn : String)
    (refetchProvided : Bool) (removeOutcome : MutationOutcome) :
    (metadata.associatedUrn = none →
      (handleDeleteLink metadata entityUrn refetchProvided
          removeOutcome).head? =
        some (Effect.removeLink metadata.url entityUrn)) ∧
    (∀ s, metadata.associatedUrn = some s → s ≠ "" →
      (handleDeleteLink metadata entityUrn refetchProvided
          removeOutcome).head? =
        some (Effect.removeLink metadata.url s)) ∧
    (metadata.associatedUrn = some "" →
      (handleDeleteLink metadata entityUrn refetchProvided
          removeOutcome).head? =
        some (Effect.removeLink metadata.url entityUrn)) := by
  refine ⟨fun h => ?_, fun s h hs => ?_, fun h => ?_⟩
  · cases removeOutcome <;> simp [handleDeleteLink, jsFalsyOr, h]
  · cases removeOutcome <;>
      simp [handleDeleteLink, jsFalsyOr, h, String.isEmpty_iff, hs]
  · have he : "".isEmpty = true := rfl
    cases removeOutcome <;> simp [handleDeleteLink, jsFalsyOr, h, he]

/-- C7 witness: with no `associatedUrn` the delete request targets the
entity's urn; with a non-empty `associatedUrn` it targets that urn. -/
theorem handleDeleteLink_request_keys_witness :
    (handleDeleteLink
        { url := "http://a", label := "l", description := "d"
          associatedUrn := none }
        "urn:li:dataset:e" true MutationOutcome.ok).head? =
      some (Effect.removeLink "http://a" "urn:li:dataset:e") ∧
    (handleDeleteLink
        { url := "http://a", label := "l", description := "d"
          associatedUrn := some "urn:li:dataset:x" }
        "urn:li:dataset:e" true MutationOutcome.ok).head? =
      some (Effect.removeLink "http://a" "urn:li:dataset:x") :=
  ⟨(handleDeleteLink_request_keys
      { url := "http://a", label := "l", description := "d"
        associatedUrn := none }
      "urn:li:dataset:e" true MutationOutcome.ok).1 rfl,
    (handleDeleteLink_request_keys
      { url := "http://a", label := "l", description := "d"
        associatedUrn := some "urn:li:dataset:x" }
      "urn:li:dataset:e" true MutationOutcome.ok).2.1
      "urn:li:dataset:x" rfl (by decide)⟩

/-- C8: for every link and every outcome of the remove mutation, when
a refetch callback was provided `handleDeleteLink` ends with the
refetch call: the trace starts with the remove attempt, has at least
two effects, and its last effect is the refetch — so the refetch runs
after the remove attempt on success and on failure alike. -/
theorem handleDeleteLink_always_refetches
    (metadata : InstitutionalMemoryMetadata) (entityUrn : String)
    (removeOutcome : MutationOutcome) :
    (handleDeleteLink metadata entityUrn true removeOutcome).head? =
      some (Effect.removeLink metadata.url
        (jsFalsyOr metadata.associatedUrn entityUrn)) ∧
    (handleDeleteLink metadata entityUrn true
        removeOutcome).getLast? = some Effect.refetchCall ∧
    2 ≤ (handleDeleteLink metadata entityUrn true removeOutcome).length := by
  cases removeOutcome with
  | ok => refine ⟨rfl, rfl, by simp [handleDeleteLink]⟩
  | threw v =>
      cases v <;>
        refine ⟨rfl, rfl, by simp [handleDeleteLink, errorNoticeEffects]⟩

/-- C10: when the remove mutation rejects with a value that is not an
`Error` instance, `handleDeleteLink` shows no error toast and no
success toast, yet the refetch callback still runs. -/
theorem handleDeleteLink_nonError_silent
    (metadata : InstitutionalMemoryMetadata) (entityUrn : String) :
    (∀ c, Effect.messageError c ∉
      handleDeleteLink metadata entityUrn true
        (MutationOutcome.threw Thrown.nonError)) ∧
    (∀ c, Effect.messageSuccess c ∉
      handleDeleteLink metadata entityUrn true
        (MutationOutcome.threw Thrown.nonError)) ∧
    Effect.refetchCall ∈
      handleDeleteLink metadata entityUrn true
        (MutationOutcome.threw Thrown.nonError) := by
  refine ⟨fun c => ?_, fun c => ?_, ?_⟩ <;>
    simp [handleDeleteLink, errorNoticeEffects]

/-- C2 counterexample: with a link being edited, no signed-in user and
a succeeding remove mutation, `handleEdit` does issue the remove-link
call — the trace contains the remove request, so the operation is not
aborted before any write. -/
theorem handleEdit_noUser_remove_is_issued :
    Effect.removeLink "http://old" "urn:li:dataset:e" ∈
      handleEdit
        (some { url := "http://old", label := "old", description := "old"
                associatedUrn := none })
        none { url := "http://new", label := "new" }
        "urn:li:dataset:e" "urn:li:dataset:m" true
        MutationOutcome.ok MutationOutcome.ok := by
  decide

/-- C2 amended: when `handleEdit` runs on a link with no truthy
`user?.urn`, no add-link call is ever performed and, when the remove
mutation succeeds, the "no user" error is reported — but only after
the remove-link call for the old link has been issued as the first
effect. -/
theorem handleEdit_noUser_no_add
    (ld : InstitutionalMemoryMetadata) (user : Option UserContext)
    (formData : EditFormData) (entityUrn mutationUrn : String)
    (refetchProvided : Bool) (removeOutcome addOutcome : MutationOutcome)
    (hu : jsTruthy (userUrnOf user) = false) :
    (∀ u l r, Effect.addLink u l r ∉
      handleEdit (some ld) user formData entityUrn mutationUrn
        refetchProvided removeOutcome addOutcome) ∧
    (handleEdit (some ld) user formData entityUrn mutationUrn
        refetchProvided removeOutcome addOutcome).head? =
      some (Effect.removeLink ld.url
        (jsFalsyOr ld.associatedUrn entityUrn)) ∧
    (removeOutcome = MutationOutcome.ok →
      Effect.messageError "Error updating link: no user" ∈
        handleEdit (some ld) user formData entityUrn mutationUrn
          refetchProvided removeOutcome addOutcome) := by
  refine ⟨fun u l r => ?_, ?_, fun hr => ?_⟩
  · cases removeOutcome with
    | ok => simp [handleEdit, hu]
    | threw v => cases v <;> simp [handleEdit, errorNoticeEffects]
  · cases removeOutcome <;> simp [handleEdit, hu]
  · subst hr
    simp [handleEdit, hu]

/-- C2 amended witness: no user, remove succeeding, concrete link. -/
theorem handleEdit_noUser_no_add_witness :
    jsTruthy (userUrnOf none) = false ∧
    ((∀ u l r, Effect.addLink u l r ∉
      handleEdit
        (some { url := "http://old", label := "old", description := "old"
                associatedUrn := none })
        none { url := "http://new", label := "new" }
        "urn:li:dataset:e" "urn:li:dataset:m" true
        MutationOutcome.ok MutationOutcome.ok) ∧
    (handleEdit
        (some { url := "http://old", label := "old", description := "old"
                associatedUrn := none })
        none { url := "http://new", label := "new" }
        "urn:li:dataset:e" "urn:li:dataset:m" true
        MutationOutcome.ok MutationOutcome.ok).head? =
      some (Effect.removeLink "http://old" "urn:li:dataset:e") ∧
    (MutationOutcome.ok = MutationOutcome.ok →
      Effect.messageError "Error updating link: no user" ∈
        handleEdit
          (some { url := "http://old", label := "old", description := "old"
                  associatedUrn := none })
          none { url := "http://new", label := "new" }
          "urn:li:dataset:e" "urn:li:dataset:m" true
          MutationOutcome.ok MutationOutcome.ok)) :=
  ⟨rfl,
    handleEdit_noUser_no_add
      { url := "http://old", label := "old", description := "old"
        associatedUrn := none }
      none { url := "http://new", label := "new" }
      "urn:li:dataset:e" "urn:li:dataset:m" true
      MutationOutcome.ok MutationOutcome.ok rfl⟩

/-- C6: editing is delete-old-then-create-new: any add-link request in
a `handleEdit` trace is strictly preceded by the remove-link request
for the old link, which is the trace's first effect; and when the
remove succeeds, the user is signed in and the add mutation then
throws, the trace is exactly the remove attempt, the add attempt,
`message.destroy()` and (for an `Error` instance) the error toast — the
old link stays removed, nothing is rolled back, the error is only
reported. -/
theorem handleEdit_delete_then_create
    (linkDetails : Option InstitutionalMemoryMetadata)
    (user : Option UserContext) (formData : EditFormData)
    (entityUrn mutationUrn : String) (refetchProvided : Bool)
    (removeOutcome addOutcome : MutationOutcome)
    (md : InstitutionalMemoryMetadata) (v : Thrown) :
    (∀ u l r, Effect.addLink u l r ∈
        handleEdit linkDetails user formData entityUrn mutationUrn
          refetchProvided removeOutcome addOutcome →
      ∃ m, linkDetails = some m ∧
        (handleEdit linkDetails user formData entityUrn mutationUrn
            refetchProvided removeOutcome addOutcome).head? =
          some (Effect.removeLink m.url
            (jsFalsyOr m.associatedUrn entityUrn))) ∧
    (jsTruthy (userUrnOf user) = true →
      handleEdit (some md) user formData entityUrn mutationUrn
          refetchProvided MutationOutcome.ok (MutationOutcome.threw v) =
        Effect.removeLink md.url (jsFalsyOr md.associatedUrn entityUrn) ::
          Effect.addLink formData.url formData.label mutationUrn ::
          Effect.messageDestroy ::
          errorNoticeEffects "Error updating link: \n " v) := by
  constructor
  · intro u l r hmem
    cases linkDetails with
    | none => simp [handleEdit] at hmem
    | some m =>
        refine ⟨m, rfl, ?_⟩
        cases removeOutcome with
        | ok =>
            cases hju : jsTruthy (userUrnOf user) with
            | true => cases addOutcome <;> simp [handleEdit, hju]
            | false => simp [handleEdit, hju]
        | threw w => cases w <;> simp [handleEdit, errorNoticeEffects]
  · intro hu
    simp [handleEdit, hu]

/-- C6 witness: signed-in user, remove succeeding, add throwing a
concrete `Error`. -/
theorem handleEdit_delete_then_create_witness :
    jsTruthy (userUrnOf (some { urn := some "urn:li:corpuser:me" })) =
      true ∧
    handleEdit
        (some { url := "http://old", label := "old", description := "old"
                associatedUrn := some "urn:li:dataset:a" })
        (some { urn := some "urn:li:corpuser:me" })
        { url := "http://new", label := "new" }
        "urn:li:dataset:e" "urn:li:dataset:m" true
        MutationOutcome.ok
        (MutationOutcome.threw (Thrown.errorInstance "boom")) =
      Effect.removeLink "http://old" "urn:li:dataset:a" ::
        Effect.addLink "http://new" "new" "urn:li:dataset:m" ::
        Effect.messageDestroy ::
        errorNoticeEffects "Error updating link: \n "
          (Thrown.errorInstance "boom") :=
  ⟨rfl,
    (handleEdit_delete_then_create
      (some { url := "http://old", label := "old", description := "old"
              associatedUrn := some "urn:li:dataset:a" })
      (some { urn := some "urn:li:corpuser:me" })
      { url := "http://new", label := "new" }
      "urn:li:dataset:e" "urn:li:dataset:m" true
      MutationOutcome.ok
      (MutationOutcome.threw (Thrown.errorInstance "boom"))
      { url := "http://old", label := "old", description := "old"
        associatedUrn := some "urn:li:dataset:a" }
      (Thrown.errorInstance "boom")).2 rfl⟩

end LinkList
